import Mathlib

/-!
Shallow embedding of the `shoponfastapi` repository slice covered by the
specification: the product listing endpoint (`app/routers/products.py`,
`get_all_products`), the review endpoints and rating aggregation
(`app/routers/reviews.py`), and the category endpoints
(`app/routers/categories.py`).

Conventions of the embedding:
* SQLAlchemy rows become Lean structures; the store is a list of rows.
* Python `float` prices, and the numeric `rating` / `avg` values, are
  modelled as `Rat` (no floating-point rounding is relevant to any claim:
  only comparisons and one exact division by a list length occur).
* FastAPI `Query(...)` parameter validation (`ge`, `le`, `min_length`) runs
  before the handler body and is modelled as a boolean precheck whose
  failure is the 422-style `queryValidation` outcome.
* PostgreSQL full-text search (`websearch_to_tsquery` / `@@` /
  `ts_rank_cd`) is external to the repository; the embedding abstracts it
  as two explicit arguments: a match predicate `fm` and a rank function
  `fr`, both applied to a product's stored text vector and the trimmed
  search term, exactly as the source computes both from the single
  `ts_query` value.
* Each `db.commit()` makes the current store state observable to other
  transactions; `create_review` therefore returns the ordered list of
  committed snapshots so that transactional claims can be stated.
-/

namespace Shop

/-- Row of the `categories` table (`app/models/categories.py` is not under
`src/`; the fields are taken from the `Category` response schema in
`app/schemas.py` and the router code, and — modelled from the spec —
creation always sets `is_active = true`). -/
structure Category where
  id : Nat
  name : String
  parent_id : Option Nat
  is_active : Bool
deriving Repr, DecidableEq

/-- Row of the `products` table (fields from the `Product` schema in
`app/schemas.py` and the router code; `tsv` is the precomputed full-text
vector over name/description that `ProductModel.tsv` denotes). -/
structure Product where
  id : Nat
  name : String
  description : Option String
  price : Rat
  image_url : Option String
  stock : Nat
  category_id : Nat
  seller_id : Nat
  is_active : Bool
  rating : Rat
  tsv : List String
deriving Repr, DecidableEq

/-- Row of the `reviews` table (`app/models/reviews.py`). `comment_date` is
irrelevant to every claim and omitted. -/
structure Review where
  id : Nat
  user_id : Nat
  product_id : Nat
  comment : Option String
  grade : Nat
  is_active : Bool
deriving Repr, DecidableEq

/-- The caller principal resolved by `get_current_user` (`app/auth.py` is
not under `src/`; fields are those the routers read: `id`, `role`,
`is_admin`). -/
structure User where
  id : Nat
  role : String
  is_admin : Bool
deriving Repr, DecidableEq

/-- The relational store slice that the review endpoints touch. -/
structure DB where
  products : List Product
  reviews : List Review
deriving Repr, DecidableEq

/-- Failure outcomes of the embedded handlers, one constructor per
distinct `HTTPException` site (plus `queryValidation` for FastAPI
parameter validation and `serverError` for an unhandled exception such as
`db.refresh(None)`). -/
inductive ApiError where
  | queryValidation
  | invalidRange
  | productNotFound
  | forbiddenRole
  | duplicateReview
  | reviewNotFound
  | notAdmin
  | parentCategoryMissing
  | categoryNotFound
  | serverError
deriving Repr, DecidableEq

/-! ### Product listing: `get_all_products` in `app/routers/products.py` -/

/-- Query parameters of `GET /products/` with their source defaults
(`page = 1`, `page_size = 20`). -/
structure ListParams where
  page : Nat
  page_size : Nat
  category_id : Option Nat
  search : Option String
  min_price : Option Rat
  max_price : Option Rat
  in_stock : Option Bool
  seller_id : Option Nat
deriving Repr

/-- Response model `ProductList` from `app/schemas.py`. -/
structure ProductListResult where
  items : List Product
  total : Nat
  page : Nat
  page_size : Nat
deriving Repr, DecidableEq

/-- FastAPI `Query` constraint checks from the endpoint signature:
`page ≥ 1`, `1 ≤ page_size ≤ 100`, `search` has `min_length = 1`,
`min_price ≥ 0`, `max_price ≥ 0`. -/
def paramsValid (p : ListParams) : Bool :=
  decide (1 ≤ p.page) && decide (1 ≤ p.page_size) && decide (p.page_size ≤ 100)
    && (match p.search with
        | none => true
        | some s => decide (1 ≤ s.length))
    && (match p.min_price with
        | none => true
        | some m => decide (0 ≤ m))
    && (match p.max_price with
        | none => true
        | some m => decide (0 ≤ m))

/-- The first check in the handler body: both bounds present and
`min_price > max_price`. -/
def priceRangeBad (p : ListParams) : Bool :=
  match p.min_price, p.max_price with
  | some m, some M => decide (M < m)
  | _, _ => false

/-- The stock predicate: `stock > 0` when `in_stock` is true, `stock == 0`
when it is false. -/
def stockFilter (want : Bool) (prod : Product) : Bool :=
  if want then decide (0 < prod.stock) else decide (prod.stock = 0)

/-- Helper for the handler's `if param is not None: filters.append(...)`
pattern: an absent parameter contributes no predicate. -/
def optFilter {α : Type} (o : Option α) (f : α → Product → Bool) :
    List (Product → Bool) :=
  match o with
  | some a => [f a]
  | none => []

/-- The `filters` list built in the handler before the search handling:
`is_active` always, then one optional predicate per supplied parameter,
appended in source order. -/
def baseFilters (p : ListParams) : List (Product → Bool) :=
  [fun prod => prod.is_active]
    ++ optFilter p.category_id (fun c prod => decide (prod.category_id = c))
    ++ optFilter p.min_price (fun m prod => decide (m ≤ prod.price))
    ++ optFilter p.max_price (fun M prod => decide (prod.price ≤ M))
    ++ optFilter p.in_stock stockFilter
    ++ optFilter p.seller_id (fun s prod => decide (prod.seller_id = s))

/-- Conjunction of a predicate list, the semantics of `.where(*filters)`. -/
def holdsAll (fs : List (Product → Bool)) (x : Product) : Bool :=
  fs.all (fun f => f x)

/-- Python `str.strip()`: drop leading and trailing whitespace, modelled
on the underlying character list. -/
def pyStrip (s : String) : String :=
  ⟨List.reverse (List.dropWhile Char.isWhitespace
    (List.reverse (List.dropWhile Char.isWhitespace s.data)))⟩

/-- The handler's search activation: `if search:` followed by
`search_value = search.strip()` and `if search_value:` — a missing or
whitespace-only term deactivates ranking; otherwise the stripped term is
used both for the match predicate and for the rank. -/
def activeSearch (p : ListParams) : Option String :=
  match p.search with
  | none => none
  | some s => if pyStrip s = "" then none else some (pyStrip s)

/-- Predicate list actually used by both the final count query and the
page query: the base filters plus, when search is active, the full-text
match predicate on the same trimmed term. -/
def finalFilters (fm : List String → String → Bool) (p : ListParams) :
    List (Product → Bool) :=
  baseFilters p
    ++ (match activeSearch p with
        | some sv => [fun prod => fm prod.tsv sv]
        | none => [])

/-- Ranked ordering used when search is active:
`order_by(desc(rank), ProductModel.id)` — higher rank first, ties broken
by ascending product id. -/
def rankedLe (fr : List String → String → Rat) (sv : String)
    (a b : Product) : Prop :=
  fr b.tsv sv < fr a.tsv sv ∨ (fr a.tsv sv = fr b.tsv sv ∧ a.id ≤ b.id)

instance (fr : List String → String → Rat) (sv : String) :
    DecidableRel (rankedLe fr sv) := by
  intro a b
  unfold rankedLe
  infer_instance

/-- Unranked ordering: `order_by(ProductModel.id)`. -/
def idLe (a b : Product) : Prop :=
  a.id ≤ b.id

instance : DecidableRel idLe := by
  intro a b
  unfold idLe
  infer_instance

/-- The `total` count query: `select(func.count()).where(*filters)` — built
once over the base filters and rebuilt over the extended filters when
search is active, so the count always uses the final predicate set. -/
def countMatches (fm : List String → String → Bool)
    (db : List Product) (p : ListParams) : Nat :=
  (db.filter (holdsAll (finalFilters fm p))).length

/-- The ordered, filtered result set before windowing: the page query's
`where` plus its `order_by`, ranked or unranked depending on search. -/
def sortedMatches (fm : List String → String → Bool)
    (fr : List String → String → Rat)
    (db : List Product) (p : ListParams) : List Product :=
  match activeSearch p with
  | some sv =>
      List.insertionSort (rankedLe fr sv) (db.filter (holdsAll (finalFilters fm p)))
  | none =>
      List.insertionSort idLe (db.filter (holdsAll (finalFilters fm p)))

/-- Windowing: `.offset((page - 1) * page_size).limit(page_size)`. -/
def pagedWindow (p : ListParams) (l : List Product) : List Product :=
  (l.drop ((p.page - 1) * p.page_size)).take p.page_size

/-- Embedding of the `GET /products/` handler `get_all_products`:
parameter validation, the `min_price > max_price` guard, filter
composition, count, ordering and windowing, mirroring
`app/routers/products.py`. -/
def get_all_products (fm : List String → String → Bool)
    (fr : List String → String → Rat)
    (db : List Product) (p : ListParams) : Except ApiError ProductListResult :=
  if paramsValid p = false then Except.error ApiError.queryValidation
  else if priceRangeBad p = true then Except.error ApiError.invalidRange
  else
    Except.ok
      ⟨pagedWindow p (sortedMatches fm fr db p), countMatches fm db p,
        p.page, p.page_size⟩

/-! ### Reviews: `app/routers/reviews.py` -/

/-- Request body `CreateReview` from `app/schemas.py` (`product_id`,
optional `comment`, `grade`; pydantic constrains `grade` to 1..5). -/
structure CreateReview where
  product_id : Nat
  comment : Option String
  grade : Nat
deriving Repr, DecidableEq

/-- Python `x or d` for an optional numeric scalar: `None` and `0.0` are
falsy, so both yield the default. This is the `result.scalar() or 0.0`
idiom in `update_product_rating`. -/
def pyOr (x : Option Rat) (d : Rat) : Rat :=
  match x with
  | none => d
  | some v => if v = 0 then d else v

/-- The grades selected by
`select(func.avg(ReviewModel.grade)).where(product_id == pid, is_active == True)`. -/
def activeGrades (db : DB) (pid : Nat) : List Nat :=
  (db.reviews.filter (fun r => decide (r.product_id = pid) && r.is_active)).map
    Review.grade

/-- SQL `avg`: `NULL` on an empty set, else the exact mean. -/
def avgGrade (l : List Nat) : Option Rat :=
  if l.length = 0 then none else some ((l.sum : Rat) / (l.length : Rat))

/-- Write a new rating onto the product row fetched by primary key. -/
def setRating (db : DB) (pid : Nat) (v : Rat) : DB :=
  ⟨db.products.map (fun prod =>
      if prod.id = pid then { prod with rating := v } else prod),
    db.reviews⟩

/-- Embedding of `update_product_rating(db, product_id)`: average the
grades of the product's active reviews (`or 0.0` when the average is
falsy), store it on the product row, and commit. -/
def update_product_rating (db : DB) (pid : Nat) : DB :=
  setRating db pid (pyOr (avgGrade (activeGrades db pid)) 0)

/-- Modelled from the spec: `get_current_buyer` lives in `app/auth.py`,
which is not under `src/`. Per the spec, the caller must hold the reviewer
capability (the `buyer` role); otherwise the call fails with the
`ForbiddenRole` outcome. -/
def get_current_buyer (u : User) : Except ApiError Unit :=
  if u.role = "buyer" then Except.ok () else Except.error ApiError.forbiddenRole

/-- Autoincrement primary key for a freshly inserted review row. -/
def nextReviewId (db : DB) : Nat :=
  (db.reviews.map Review.id).foldr Nat.max 0 + 1

/-- The row built by `ReviewModel(**review.model_dump(), user_id=current_user.id)`;
the model default sets `is_active = True`. -/
def newReviewOf (db : DB) (payload : CreateReview) (u : User) : Review :=
  ⟨nextReviewId db, u.id, payload.product_id, payload.comment, payload.grade, true⟩

/-- The store immediately after `db.add(db_review); await db.commit()`. -/
def insertedDB (db : DB) (payload : CreateReview) (u : User) : DB :=
  ⟨db.products, db.reviews ++ [newReviewOf db payload u]⟩

/-- Result of a successful `create_review`: the created row plus the
ordered list of store states made observable by each `db.commit()` (the
handler commits once after the insert and `update_product_rating` commits
again after the rating write). -/
structure CreateOutcome where
  review : Review
  commits : List DB
deriving Repr, DecidableEq

/-- Embedding of the `POST /reviews/` handler `create_review`: fetch the
product by id (no `is_active` condition in the source), check the buyer
capability, look for an existing review by the same user on the same
product (again with no `is_active` condition in the source), then insert,
commit, and run `update_product_rating`, which commits a second time. -/
def create_review (db : DB) (payload : CreateReview) (u : User) :
    Except ApiError CreateOutcome :=
  match db.products.find? (fun prod => decide (prod.id = payload.product_id)) with
  | none => Except.error ApiError.productNotFound
  | some product =>
    match get_current_buyer u with
    | Except.error e => Except.error e
    | Except.ok _ =>
      match db.reviews.find? (fun r =>
          decide (r.product_id = payload.product_id) && decide (r.user_id = u.id)) with
      | some _ => Except.error ApiError.duplicateReview
      | none =>
        let db1 := insertedDB db payload u
        let db2 := update_product_rating db1 product.id
        Except.ok ⟨newReviewOf db payload u, [db1, db2]⟩

/-- Embedding of the `DELETE /reviews/(review_id)` handler `delete_review`:
find an active review with the given id, require an admin caller, flip
`is_active` to false and commit. The source never calls
`update_product_rating` on this path, so the product row is untouched. -/
def delete_review (db : DB) (review_id : Nat) (u : User) : Except ApiError DB :=
  match db.reviews.find? (fun r => decide (r.id = review_id) && r.is_active) with
  | none => Except.error ApiError.reviewNotFound
  | some _ =>
    if u.is_admin = false then Except.error ApiError.notAdmin
    else
      Except.ok
        ⟨db.products,
          db.reviews.map (fun r =>
            if r.id = review_id then { r with is_active := false } else r)⟩

/-! ### Categories: `app/routers/categories.py` -/

/-- Request body `CategoryCreate` from `app/schemas.py`. -/
structure CategoryCreate where
  name : String
  parent_id : Option Nat
deriving Repr, DecidableEq

/-- Python truthiness of a pydantic model instance: `BaseModel` defines
neither a false-returning `bool` conversion nor a length, so
`bool(instance)` is always `True`. `update_category`'s first guard,
`if not category:`, tests the request payload through exactly this
conversion. -/
def pydanticTruthy (_payload : CategoryCreate) : Bool :=
  true

/-- Autoincrement primary key for a freshly inserted category row. -/
def nextCategoryId (db : List Category) : Nat :=
  (db.map Category.id).foldr Nat.max 0 + 1

/-- The row built by `CategoryModel(**category.model_dump())`; modelled
from the spec, creation sets `is_active = true` (the model file is not
under `src/`). -/
def insertCategory (db : List Category) (payload : CategoryCreate) :
    Category × List Category :=
  let c : Category := ⟨nextCategoryId db, payload.name, payload.parent_id, true⟩
  (c, db ++ [c])

/-- Embedding of the `POST /categories/` handler `create_category`: when a
`parent_id` is supplied, require an active category with that id
(otherwise the 400 `Parent category not found` outcome), then insert and
commit. -/
def create_category (db : List Category) (payload : CategoryCreate) :
    Except ApiError (Category × List Category) :=
  match payload.parent_id with
  | some pid =>
    match db.find? (fun c => decide (c.id = pid) && c.is_active) with
    | none => Except.error ApiError.parentCategoryMissing
    | some _ => Except.ok (insertCategory db payload)
  | none => Except.ok (insertCategory db payload)

/-- The `update(CategoryModel).where(id == category_id).values(**payload)`
statement: it rewrites `name` and `parent_id` of every row with the given
id, active or not, and leaves `is_active` alone. -/
def applyCategoryUpdate (db : List Category) (category_id : Nat)
    (payload : CategoryCreate) : List Category :=
  db.map (fun c =>
    if c.id = category_id
    then { c with name := payload.name, parent_id := payload.parent_id }
    else c)

/-- Embedding of the `PUT /categories/(category_id)` handler
`update_category`, kept faithful to the source's two slips: the
`Category not found` guard tests `category` (the request payload, via
`pydanticTruthy`) instead of `category_db` (the fetched row), and the
parent check re-selects `CategoryModel.id == category_id` — the target id —
instead of the supplied `parent_id`. The update statement executes and
commits before `db.refresh(category_db)`; refreshing `None` raises, which
surfaces as `serverError` after the committed store change. The returned
pair is (handler outcome, committed store state). -/
def update_category (db : List Category) (category_id : Nat)
    (payload : CategoryCreate) : Except ApiError Category × List Category :=
  let category_db := db.find? (fun c => decide (c.id = category_id) && c.is_active)
  if pydanticTruthy payload = false then
    (Except.error ApiError.categoryNotFound, db)
  else
    let parentCheckFails : Bool :=
      match payload.parent_id with
      | some _ => (db.find? (fun c => decide (c.id = category_id) && c.is_active)).isNone
      | none => false
    if parentCheckFails = true then (Except.error ApiError.categoryNotFound, db)
    else
      let db1 := applyCategoryUpdate db category_id payload
      match category_db with
      | none => (Except.error ApiError.serverError, db1)
      | some c =>
        (Except.ok ⟨c.id, payload.name, payload.parent_id, c.is_active⟩, db1)

/-! ### Shared lemmas about the listing endpoint -/

lemma get_all_products_ok_elim (fm : List String → String → Bool)
    (fr : List String → String → Rat) (db : List Product) (p : ListParams)
    (res : ProductListResult)
    (h : get_all_products fm fr db p = Except.ok res) :
    res = ⟨pagedWindow p (sortedMatches fm fr db p), countMatches fm db p,
      p.page, p.page_size⟩ := by
  unfold get_all_products at h
  split at h
  · simp at h
  · split at h
    · simp at h
    · cases h
      rfl

lemma sortedMatches_length (fm : List String → String → Bool)
    (fr : List String → String → Rat) (db : List Product) (p : ListParams) :
    (sortedMatches fm fr db p).length = countMatches fm db p := by
  unfold sortedMatches countMatches
  cases hA : activeSearch p with
  | none =>
      exact (List.perm_insertionSort idLe
        (db.filter (holdsAll (finalFilters fm p)))).length_eq
  | some sv =>
      exact (List.perm_insertionSort (rankedLe fr sv)
        (db.filter (holdsAll (finalFilters fm p)))).length_eq

lemma pairwise_pagedWindow (p : ListParams) (l : List Product)
    (R : Product → Product → Prop) (h : l.Pairwise R) :
    (pagedWindow p l).Pairwise R := by
  unfold pagedWindow
  exact (h.sublist (List.drop_sublist _ _)).sublist (List.take_sublist _ _)

lemma pagedWindow_eq_nil (p : ListParams) (l : List Product)
    (h : l.length ≤ (p.page - 1) * p.page_size) : pagedWindow p l = [] := by
  unfold pagedWindow
  rw [List.drop_eq_nil_of_le h]
  simp

lemma ceil_lt_page_mul (t ps page : Nat) (hps : 1 ≤ ps)
    (h : (t + ps - 1) / ps < page) : t ≤ (page - 1) * ps := by
  have hq := Nat.div_add_mod (t + ps - 1) ps
  have hr : (t + ps - 1) % ps < ps := Nat.mod_lt _ hps
  have h1 : (t + ps - 1) / ps ≤ page - 1 := by omega
  have h2 : t ≤ ps * ((t + ps - 1) / ps) := by omega
  calc t ≤ ps * ((t + ps - 1) / ps) := h2
    _ ≤ ps * (page - 1) := Nat.mul_le_mul_left ps h1
    _ = (page - 1) * ps := Nat.mul_comm ps (page - 1)

lemma paramsValid_page_size_pos (p : ListParams)
    (hv : paramsValid p = true) : 1 ≤ p.page_size := by
  unfold paramsValid at hv
  simp only [Bool.and_eq_true, decide_eq_true_eq] at hv
  exact hv.1.1.1.1.2

/-! ### Claim theorems -/

/-- C9: when both price bounds are supplied and `min_price > max_price`,
`get_all_products` fails with the `InvalidRange` outcome for every store
state and every full-text semantics — the store is quantified over, so no
query can influence the outcome, capturing `before any query executes`.
The parameters are assumed to pass FastAPI's own `Query` validation,
which runs before the handler body. -/
theorem C9_price_range_rejected (fm : List String → String → Bool)
    (fr : List String → String → Rat) (db : List Product) (p : ListParams)
    (m M : Rat) (hv : paramsValid p = true)
    (hm : p.min_price = some m) (hM : p.max_price = some M) (hlt : M < m) :
    get_all_products fm fr db p = Except.error ApiError.invalidRange := by
  have hbad : priceRangeBad p = true := by
    unfold priceRangeBad
    rw [hm, hM]
    exact decide_eq_true hlt
  simp [get_all_products, hv, hbad]

def fmW : List String → String → Bool := fun _ _ => true

def frW : List String → String → Rat := fun _ _ => 0

def pC9 : ListParams := ⟨1, 20, none, none, some 50, some 10, none, none⟩

theorem C9_price_range_rejected_witness :
    get_all_products fmW frW [] pC9 = Except.error ApiError.invalidRange :=
  C9_price_range_rejected fmW frW [] pC9 50 10 (by decide) rfl rfl (by norm_num)

/-- C3: `total` equals the number of products that satisfy exactly the
final predicate set (the active-product filters plus the full-text match
when search is active — the same set filtering the returned page), and it
is unchanged between two requests that agree on every filter and search
argument but differ in `page` and `page_size`. -/
theorem C3_total_matches_page_predicates (fm : List String → String → Bool)
    (fr : List String → String → Rat) (db : List Product)
    (p p' : ListParams) (res res' : ProductListResult)
    (h : get_all_products fm fr db p = Except.ok res)
    (h' : get_all_products fm fr db p' = Except.ok res')
    (hc : p'.category_id = p.category_id) (hs : p'.search = p.search)
    (hmin : p'.min_price = p.min_price) (hmax : p'.max_price = p.max_price)
    (hstock : p'.in_stock = p.in_stock) (hsell : p'.seller_id = p.seller_id) :
    res.total = (db.filter (holdsAll (finalFilters fm p))).length
    ∧ res'.total = res.total := by
  have hff : finalFilters fm p' = finalFilters fm p := by
    have hbf : baseFilters p' = baseFilters p := by
      unfold baseFilters
      rw [hc, hmin, hmax, hstock, hsell]
    have has : activeSearch p' = activeSearch p := by
      unfold activeSearch
      rw [hs]
    unfold finalFilters
    rw [hbf, has]
  have e := get_all_products_ok_elim fm fr db p res h
  have e' := get_all_products_ok_elim fm fr db p' res' h'
  constructor
  · rw [e]
    rfl
  · rw [e, e']
    show countMatches fm db p' = countMatches fm db p
    unfold countMatches
    rw [hff]

def pAw : Product := ⟨1, "Alpha", none, 10, none, 2, 1, 1, true, 0, ["alpha"]⟩

def pBw : Product := ⟨2, "Beta", none, 20, none, 0, 1, 1, true, 0, ["beta"]⟩

def pC3 : ListParams := ⟨1, 1, none, none, none, none, none, none⟩

def pC3' : ListParams := ⟨2, 50, none, none, none, none, none, none⟩

def resC3 : ProductListResult := ⟨[pAw], 2, 1, 1⟩

def resC3' : ProductListResult := ⟨[], 2, 2, 50⟩

theorem C3_total_matches_page_predicates_witness :
    resC3.total = (List.filter (holdsAll (finalFilters fmW pC3)) [pBw, pAw]).length
    ∧ resC3'.total = resC3.total :=
  C3_total_matches_page_predicates fmW frW [pBw, pAw] pC3 pC3' resC3 resC3'
    rfl rfl rfl rfl rfl rfl rfl rfl

lemma rankedLe_total (fr : List String → String → Rat) (sv : String) :
    ∀ a b : Product, rankedLe fr sv a b ∨ rankedLe fr sv b a := by
  intro a b
  rcases lt_trichotomy (fr a.tsv sv) (fr b.tsv sv) with hlt | heq | hgt
  · exact Or.inr (Or.inl hlt)
  · rcases Nat.le_total a.id b.id with hid | hid
    · exact Or.inl (Or.inr ⟨heq, hid⟩)
    · exact Or.inr (Or.inr ⟨heq.symm, hid⟩)
  · exact Or.inl (Or.inl hgt)

lemma rankedLe_trans (fr : List String → String → Rat) (sv : String) :
    ∀ a b c : Product, rankedLe fr sv a b → rankedLe fr sv b c →
      rankedLe fr sv a c := by
  intro a b c hab hbc
  rcases hab with hab | ⟨hab, haid⟩
  · rcases hbc with hbc | ⟨hbc, _⟩
    · exact Or.inl (lt_trans hbc hab)
    · exact Or.inl (hbc ▸ hab)
  · rcases hbc with hbc | ⟨hbc, hbid⟩
    · exact Or.inl (lt_of_lt_of_eq hbc hab.symm)
    · exact Or.inr ⟨hab.trans hbc, le_trans haid hbid⟩

/-- C7: ordering of the returned page is deterministic. When the request
carries a search term that is non-empty after trimming, every adjacent
pair of returned items satisfies `rankedLe`: relevance score descending
with ties broken by ascending product id. When no search term is active
(absent or whitespace-only), every adjacent pair satisfies `idLe`:
ascending product id. -/
theorem C7_result_ordering (fm : List String → String → Bool)
    (fr : List String → String → Rat) (db : List Product) (p : ListParams)
    (res : ProductListResult)
    (h : get_all_products fm fr db p = Except.ok res) :
    (∀ s, p.search = some s → ¬ pyStrip s = "" →
        res.items.Pairwise (rankedLe fr (pyStrip s)))
    ∧ (activeSearch p = none → res.items.Pairwise idLe) := by
  have e := get_all_products_ok_elim fm fr db p res h
  constructor
  · intro s hsearch htrim
    have hA : activeSearch p = some (pyStrip s) := by
      unfold activeSearch
      rw [hsearch]
      simp [htrim]
    rw [e]
    show (pagedWindow p (sortedMatches fm fr db p)).Pairwise
      (rankedLe fr (pyStrip s))
    apply pairwise_pagedWindow
    unfold sortedMatches
    rw [hA]
    haveI : IsTotal Product (rankedLe fr (pyStrip s)) :=
      ⟨rankedLe_total fr (pyStrip s)⟩
    haveI : IsTrans Product (rankedLe fr (pyStrip s)) :=
      ⟨rankedLe_trans fr (pyStrip s)⟩
    exact List.sorted_insertionSort (rankedLe fr (pyStrip s)) _
  · intro hA
    rw [e]
    show (pagedWindow p (sortedMatches fm fr db p)).Pairwise idLe
    apply pairwise_pagedWindow
    unfold sortedMatches
    rw [hA]
    haveI : IsTotal Product idLe := ⟨fun a b => Nat.le_total a.id b.id⟩
    haveI : IsTrans Product idLe := ⟨fun _ _ _ hab hbc => le_trans hab hbc⟩
    exact List.sorted_insertionSort idLe _

def pC7 : ListParams := ⟨1, 20, none, some ("tv"), none, none, none, none⟩

def resC7 : ProductListResult := ⟨[pAw, pBw], 2, 1, 20⟩

theorem C7_result_ordering_witness :
    resC7.items.Pairwise (rankedLe frW (pyStrip ("tv"))) :=
  (C7_result_ordering fmW frW [pBw, pAw] pC7 resC7 rfl).1 ("tv") rfl
    (by decide)

/-- C8: for parameters that pass validation, `get_all_products` succeeds
and returns exactly the `(page - 1) * page_size` offset window of length
at most `page_size` of the ordered filtered result set (`pagedWindow`
unfolds to `drop ((page - 1) * page_size)` then `take page_size`), and
whenever `page` exceeds `ceil(total / page_size)` the returned items list
is empty rather than the call failing. -/
theorem C8_window_and_empty_page (fm : List String → String → Bool)
    (fr : List String → String → Rat) (db : List Product) (p : ListParams)
    (hv : paramsValid p = true) (hr : priceRangeBad p = false) :
    get_all_products fm fr db p
      = Except.ok ⟨pagedWindow p (sortedMatches fm fr db p),
          countMatches fm db p, p.page, p.page_size⟩
    ∧ pagedWindow p (sortedMatches fm fr db p)
        = ((sortedMatches fm fr db p).drop ((p.page - 1) * p.page_size)).take
            p.page_size
    ∧ (pagedWindow p (sortedMatches fm fr db p)).length ≤ p.page_size
    ∧ ((countMatches fm db p + p.page_size - 1) / p.page_size < p.page →
        pagedWindow p (sortedMatches fm fr db p) = []) := by
  refine ⟨by simp [get_all_products, hv, hr], rfl, ?_, ?_⟩
  · unfold pagedWindow
    rw [List.length_take]
    exact Nat.min_le_left _ _
  · intro hpage
    apply pagedWindow_eq_nil
    rw [sortedMatches_length]
    exact ceil_lt_page_mul _ _ _ (paramsValid_page_size_pos p hv) hpage

def pC8 : ListParams := ⟨5, 20, none, none, none, none, none, none⟩

theorem C8_window_and_empty_page_witness :
    get_all_products fmW frW [pAw] pC8
      = Except.ok ⟨pagedWindow pC8 (sortedMatches fmW frW [pAw] pC8),
          countMatches fmW [pAw] pC8, pC8.page, pC8.page_size⟩
    ∧ pagedWindow pC8 (sortedMatches fmW frW [pAw] pC8)
        = ((sortedMatches fmW frW [pAw] pC8).drop
            ((pC8.page - 1) * pC8.page_size)).take pC8.page_size
    ∧ (pagedWindow pC8 (sortedMatches fmW frW [pAw] pC8)).length ≤ pC8.page_size
    ∧ ((countMatches fmW [pAw] pC8 + pC8.page_size - 1) / pC8.page_size
          < pC8.page →
        pagedWindow pC8 (sortedMatches fmW frW [pAw] pC8) = []) :=
  C8_window_and_empty_page fmW frW [pAw] pC8 (by decide) rfl

/-! ### Review-claim fixtures -/

def buyer7 : User := ⟨7, "buyer", false⟩

def buyer8 : User := ⟨8, "buyer", false⟩

def adminUser : User := ⟨99, "admin", true⟩

def prodTV : Product := ⟨1, "TV", none, 100, none, 3, 1, 2, true, 4, []⟩

def dbC1 : DB := ⟨[prodTV],
  [⟨1, 11, 1, none, 4, true⟩, ⟨2, 12, 1, none, 5, true⟩,
    ⟨3, 13, 1, none, 3, true⟩]⟩

def dbC1after : DB := ⟨[prodTV],
  [⟨1, 11, 1, none, 4, true⟩, ⟨2, 12, 1, none, 5, true⟩,
    ⟨3, 13, 1, none, 3, false⟩]⟩

/-- C1: evidence for the code bug. Product 1 has active reviews with
grades [4, 5, 3] and stored rating 4 (their mean). An admin soft-deletes
the grade-3 review. `delete_review` succeeds but — unlike `create_review`
— never calls `update_product_rating`, so the stored rating stays 4 while
the mean grade of the still-active reviews in the resulting store is 9/2
(= 4.5), the value the claim requires. -/
theorem C1_delete_leaves_rating_stale :
    delete_review dbC1 3 adminUser = Except.ok dbC1after
    ∧ dbC1after.products.map Product.rating = [4]
    ∧ pyOr (avgGrade (activeGrades dbC1after 1)) 0 = 9 / 2
    ∧ ¬ (4 : Rat) = 9 / 2 := by
  refine ⟨rfl, rfl, ?_, by norm_num⟩
  rw [show activeGrades dbC1after 1 = [4, 5] from rfl]
  rw [show avgGrade [4, 5] = some (9 / 2) from by
    unfold avgGrade
    norm_num]
  show (if (9 / 2 : Rat) = 0 then (0 : Rat) else 9 / 2) = 9 / 2
  rw [if_neg (by norm_num)]

def prodTV0 : Product := ⟨1, "TV", none, 100, none, 3, 1, 2, true, 0, []⟩

def dbC2 : DB := ⟨[prodTV0], []⟩

def dbC2mid : DB := ⟨[prodTV0], [⟨1, 7, 1, none, 5, true⟩]⟩

/-- C2: counterexample to the single-transaction claim. At a concrete
store, `create_review` produces two committed snapshots, because the
handler commits right after the insert and `update_product_rating`
commits again after the rating write. In the first committed snapshot the
new review is present while the product's stored rating is still the
pre-mutation value 0, although the mean grade of its active reviews there
is 5 — an observer between the two commits sees exactly the state the
claim says can never be observed. -/
theorem C2_intermediate_commit_observable :
    create_review dbC2 ⟨1, none, 5⟩ buyer7
      = Except.ok ⟨⟨1, 7, 1, none, 5, true⟩,
          [dbC2mid, update_product_rating dbC2mid 1]⟩
    ∧ dbC2mid.reviews = [⟨1, 7, 1, none, 5, true⟩]
    ∧ dbC2mid.products.map Product.rating = [0]
    ∧ pyOr (avgGrade (activeGrades dbC2mid 1)) 0 = 5
    ∧ ¬ (0 : Rat) = 5 := by
  refine ⟨rfl, rfl, rfl, ?_, by norm_num⟩
  rw [show activeGrades dbC2mid 1 = [5] from rfl]
  rw [show avgGrade [5] = some 5 from by
    unfold avgGrade
    norm_num]
  show (if (5 : Rat) = 0 then (0 : Rat) else 5) = 5
  rw [if_neg (by norm_num)]

/-- C2 amended: whenever the three preconditions pass (the product row
exists, the caller is a buyer, and the caller has no prior review row on
the product), `create_review` commits twice, not once: the first
committed state is the store with only the review inserted (the product
rows, and hence the stored rating, unchanged), and the second is the
first with the rating recomputed by `update_product_rating`. A failure
after the first commit would therefore leave the review committed without
the rating update. -/
theorem C2_two_commit_protocol (db : DB) (payload : CreateReview) (u : User)
    (product : Product)
    (hp : db.products.find? (fun prod => decide (prod.id = payload.product_id))
      = some product)
    (hb : u.role = "buyer")
    (hd : db.reviews.find? (fun r =>
        decide (r.product_id = payload.product_id)
          && decide (r.user_id = u.id)) = none) :
    create_review db payload u
      = Except.ok ⟨newReviewOf db payload u,
          [insertedDB db payload u,
            update_product_rating (insertedDB db payload u) product.id]⟩
    ∧ (insertedDB db payload u).products = db.products := by
  constructor
  · have hbuyer : get_current_buyer u = Except.ok () := by
      unfold get_current_buyer
      rw [hb]
      simp
    unfold create_review
    rw [hp, hbuyer, hd]
  · rfl

theorem C2_two_commit_protocol_witness :
    create_review dbC2 ⟨1, none, 4⟩ buyer8
      = Except.ok ⟨newReviewOf dbC2 ⟨1, none, 4⟩ buyer8,
          [insertedDB dbC2 ⟨1, none, 4⟩ buyer8,
            update_product_rating (insertedDB dbC2 ⟨1, none, 4⟩ buyer8)
              prodTV0.id]⟩
    ∧ (insertedDB dbC2 ⟨1, none, 4⟩ buyer8).products = dbC2.products :=
  C2_two_commit_protocol dbC2 ⟨1, none, 4⟩ buyer8 prodTV0 rfl rfl rfl

def dbC4 : DB := ⟨[prodTV0], [⟨1, 7, 1, none, 4, false⟩]⟩

/-- C4: counterexample. Product 1 is active, and user 7's only review of
it has been soft-deleted (`is_active = false`). The claim says a new
review by user 7 now succeeds; the code still answers `DuplicateReview`,
because the duplicate-check query in the source carries no `is_active`
condition. -/
theorem C4_soft_deleted_review_still_blocks :
    create_review dbC4 ⟨1, none, 5⟩ buyer7
      = Except.error ApiError.duplicateReview := rfl

/-- C4 amended: for a buyer and an existing product row, `create_review`
fails with `DuplicateReview` exactly when the caller already has some
review row — active or soft-deleted — on the product; a soft-deleted
earlier review therefore still blocks a new one. -/
theorem C4_duplicate_check_ignores_is_active (db : DB)
    (payload : CreateReview) (u : User)
    (hp : (db.products.find?
      (fun prod => decide (prod.id = payload.product_id))).isSome = true)
    (hb : u.role = "buyer") :
    (create_review db payload u = Except.error ApiError.duplicateReview
      ↔ ∃ r ∈ db.reviews,
          r.product_id = payload.product_id ∧ r.user_id = u.id) := by
  obtain ⟨product, hp'⟩ := Option.isSome_iff_exists.mp hp
  have hbuyer : get_current_buyer u = Except.ok () := by
    unfold get_current_buyer
    rw [hb]
    simp
  unfold create_review
  rw [hp', hbuyer]
  cases hfind : db.reviews.find? (fun r =>
      decide (r.product_id = payload.product_id)
        && decide (r.user_id = u.id)) with
  | none =>
      constructor
      · intro h
        exact absurd h (by simp)
      · rintro ⟨r, hmem, hpid, huid⟩
        have hno := List.find?_eq_none.mp hfind r hmem
        simp only [Bool.and_eq_true, decide_eq_true_eq] at hno
        exact absurd ⟨hpid, huid⟩ hno
  | some r =>
      constructor
      · intro _
        have hmem := List.mem_of_find?_eq_some hfind
        have hpred := List.find?_some hfind
        simp only [Bool.and_eq_true, decide_eq_true_eq] at hpred
        exact ⟨r, hmem, hpred.1, hpred.2⟩
      · intro _
        rfl

def dbC4w : DB := ⟨[prodTV0], [⟨1, 8, 1, none, 2, true⟩]⟩

theorem C4_duplicate_check_ignores_is_active_witness :
    create_review dbC4w ⟨1, none, 5⟩ buyer8
      = Except.error ApiError.duplicateReview :=
  (C4_duplicate_check_ignores_is_active dbC4w ⟨1, none, 5⟩ buyer8 rfl rfl).mpr
    ⟨⟨1, 8, 1, none, 2, true⟩, List.mem_cons_self _ _, rfl, rfl⟩

def ghostProd : Product := ⟨1, "Ghost", none, 10, none, 5, 1, 3, false, 0, []⟩

def dbC5 : DB := ⟨[ghostProd], []⟩

def dbC5mid : DB := ⟨[ghostProd], [⟨1, 7, 1, none, 5, true⟩]⟩

/-- C5: counterexample. Product 1 is soft-deleted (`is_active = false`),
yet `create_review` succeeds and inserts a review row for it, because the
product lookup in the source selects by id only, with no `is_active`
condition. The claim requires `ProductNotFound` here. -/
theorem C5_review_created_for_inactive_product :
    create_review dbC5 ⟨1, none, 5⟩ buyer7
      = Except.ok ⟨⟨1, 7, 1, none, 5, true⟩,
          [dbC5mid, update_product_rating dbC5mid 1]⟩
    ∧ ghostProd.is_active = false := ⟨rfl, rfl⟩

/-- C5 amended: `create_review` fails with `ProductNotFound` exactly when
no product row with the requested id exists at all; `is_active` is never
consulted, so a soft-deleted product passes the check and a review can be
created for it. -/
theorem C5_product_check_ignores_is_active (db : DB)
    (payload : CreateReview) (u : User) :
    (create_review db payload u = Except.error ApiError.productNotFound
      ↔ ∀ prod ∈ db.products, ¬ prod.id = payload.product_id) := by
  unfold create_review
  cases hfind : db.products.find?
      (fun prod => decide (prod.id = payload.product_id)) with
  | none =>
      constructor
      · intro _ prod hmem
        have hno := List.find?_eq_none.mp hfind prod hmem
        simpa using hno
      · intro _
        rfl
  | some product =>
      constructor
      · intro h
        cases hb : get_current_buyer u with
        | error e =>
            rw [hb] at h
            unfold get_current_buyer at hb
            split at hb
            · exact absurd hb (by simp)
            · cases hb
              exact absurd h (by simp)
        | ok u' =>
            rw [hb] at h
            cases hdup : db.reviews.find? (fun r =>
                decide (r.product_id = payload.product_id)
                  && decide (r.user_id = u.id)) with
            | none =>
                rw [hdup] at h
                exact absurd h (by simp)
            | some r =>
                rw [hdup] at h
                exact absurd h (by simp)
      · intro hnone
        have hmem := List.mem_of_find?_eq_some hfind
        have hpred := List.find?_some hfind
        simp only [decide_eq_true_eq] at hpred
        exact absurd hpred (hnone product hmem)

/-! ### Category claims -/

def catRoot : Category := ⟨1, "Electronics", none, true⟩

/-- C6: evidence for the code bug the spec itself flags. The store holds
only the active category 1; no category with id 99 exists (second
conjunct). `update_category` on category 1 with `parent_id = 99`
nevertheless succeeds and commits `parent_id := 99`, because its parent
check re-selects the target id `category_id` instead of the supplied
`parent_id`. `create_category` against the same store rejects the same
parent with the `Parent category not found` outcome (third conjunct),
which is the intended behavior at creation time. -/
theorem C6_update_accepts_missing_parent :
    update_category [catRoot] 1 ⟨"Electronics", some 99⟩
      = (Except.ok ⟨1, "Electronics", some 99, true⟩,
          [⟨1, "Electronics", some 99, true⟩])
    ∧ List.find? (fun c => decide (c.id = 99) && c.is_active) [catRoot] = none
    ∧ create_category [catRoot] ⟨"Phones", some 99⟩
        = Except.error ApiError.parentCategoryMissing :=
  ⟨rfl, rfl, rfl⟩

/-- C10: the `Category not found` rejection for the target category in
`update_category` is unreachable, because the guard tests the request
payload — whose pydantic truthiness is constantly true — instead of the
fetched row. Consequently a request without a `parent_id` that names an
id with no active category passes the existence check, executes and
commits the update statement (`applyCategoryUpdate`), and then fails at
`db.refresh(None)` with a server error — not with the `CategoryNotFound`
outcome. -/
theorem C10_target_guard_unreachable :
    (∀ payload : CategoryCreate, pydanticTruthy payload = true)
    ∧ (∀ (db : List Category) (cid : Nat) (payload : CategoryCreate),
        payload.parent_id = none →
        db.find? (fun c => decide (c.id = cid) && c.is_active) = none →
        update_category db cid payload
          = (Except.error ApiError.serverError,
              applyCategoryUpdate db cid payload)) := by
  constructor
  · intro payload
    rfl
  · intro db cid payload hpar hfind
    unfold update_category
    rw [hfind, hpar]
    rfl

theorem C10_target_guard_unreachable_witness :
    update_category [] 5 ⟨"Books", none⟩
      = (Except.error ApiError.serverError,
          applyCategoryUpdate [] 5 ⟨"Books", none⟩) :=
  C10_target_guard_unreachable.2 [] 5 ⟨"Books", none⟩ rfl rfl

end Shop
